import Mathlib

/-!
Verification of the Record Store Demo script (src/lib/sqlalchemy_sandbox.py).

The script declares one mapped entity (Student), creates the schema on an
in-memory SQLite backend, and runs a fixed sequence of create/read/update/
delete operations.  We embed the backend as a list of rows plus an
auto-increment counter and each library call as a pure function on that
state, then prove the claims about the scripted run.
-/

namespace SqlalchemySandbox

/-- Calendar date; the source builds datetimes with only year, month, day
(hour, minute, second are zero for both birthdays). -/
structure Date where
  year : Nat
  month : Nat
  day : Nat
deriving DecidableEq

/-- An in-memory Student object as constructed in the script: `id` and
`enrolled_date` are not passed to the constructor, so they start unset
(Python None). -/
structure StudentObj where
  id : Option Nat
  name : String
  email : String
  grade : Int
  birthday : Date
  enrolled_date : Option Nat
deriving DecidableEq

/-- A persisted row of the `students` table: the primary key `id` is a
generated integer, `enrolled_date` has been filled (possibly from the
column default). Timestamps are abstracted as naturals. -/
structure Row where
  id : Nat
  name : String
  email : String
  grade : Int
  birthday : Date
  enrolled_date : Nat
deriving DecidableEq

/-- Backend state: the `students` table in rowid (insertion) order plus the
next primary key SQLite will generate. -/
structure DB where
  rows : List Row
  nextId : Nat
deriving DecidableEq

/-- A column default. In the source, `default=datetime.now()` CALLS `now()`
in the class body, so the column default is the constant value of that one
call (`const`); passing the callable `datetime.now` instead would give a
per-insert default (`perCall`), which the source does not do. -/
inductive ColDefault where
  | const : Nat → ColDefault
  | perCall : ColDefault
deriving DecidableEq

/-- Value an insert at time `insertTime` receives from a column default. -/
def applyDefault : ColDefault → Nat → Nat
  | .const c, _ => c
  | .perCall, insertTime => insertTime

/-- Embeds `enrolled_date = Column(DateTime(), default=datetime.now())`:
`classDefTime` is the single evaluation of `datetime.now()` at class
definition. -/
def enrolledDefault (classDefTime : Nat) : ColDefault :=
  ColDefault.const classDefTime

/-- The row the INSERT writes for an object: the backend assigns the id,
and `enrolled_date`, absent on the object, comes from the column default. -/
def rowOfObj (d : ColDefault) (insertTime assignedId : Nat) (o : StudentObj) : Row :=
  { id := assignedId
    name := o.name
    email := o.email
    grade := o.grade
    birthday := o.birthday
    enrolled_date := o.enrolled_date.getD (applyDefault d insertTime) }

/-- `session.bulk_save_objects(objs)`: each object is inserted as a row with
the next generated id, but — with the default `return_defaults=False` — the
in-memory objects are NOT refreshed: they are returned unchanged, their
`id` attribute still None.  Each object carries its insertion time. -/
def bulkSaveObjects (db : DB) (d : ColDefault) :
    List (StudentObj × Nat) → DB × List StudentObj
  | [] => (db, [])
  | (o, t) :: rest =>
    let db' : DB := { rows := db.rows ++ [rowOfObj d t db.nextId o]
                      nextId := db.nextId + 1 }
    let r := bulkSaveObjects db' d rest
    (r.1, o :: r.2)

/-- An unfiltered `session.query(Student)`: SQLite scans the table in rowid
order, which is the stored order of our row list. -/
def queryAll (db : DB) : List Row :=
  db.rows

/-- Insertion into a list sorted by `le` (Bool-valued total preorder). -/
def insertSorted {α : Type} (le : α → α → Bool) (x : α) : List α → List α
  | [] => [x]
  | y :: ys => if le x y then x :: y :: ys else y :: insertSorted le x ys

/-- Insertion sort, used to embed `ORDER BY`. -/
def sortOn {α : Type} (le : α → α → Bool) (l : List α) : List α :=
  l.foldr (insertSorted le) []

/-- Byte-wise (BINARY collation) comparison of character lists. -/
def chLt : List Char → List Char → Bool
  | [], [] => false
  | [], _ :: _ => true
  | _ :: _, [] => false
  | a :: as, b :: bs => if a < b then true else if b < a then false else chLt as bs

/-- `ORDER BY name` ascending under SQLite BINARY collation. -/
def nameAscLe (a b : Row) : Bool :=
  !(chLt b.name.data a.name.data)

/-- `ORDER BY grade DESC`. -/
def gradeDescLe (a b : Row) : Bool :=
  decide (b.grade ≤ a.grade)

/-- Needle is a leading block of the haystack. -/
def chStarts : List Char → List Char → Bool
  | [], _ => true
  | _ :: _, [] => false
  | a :: as, b :: bs => a == b && chStarts as bs

/-- Needle occurs contiguously in the haystack. -/
def chHasSub (needle : List Char) : List Char → Bool
  | [] => needle.isEmpty
  | b :: bs => chStarts needle (b :: bs) || chHasSub needle bs

/-- Embeds `Student.name.like("%Alan%")`: SQLite LIKE, which by default is
case-insensitive for ASCII, with a needle wrapped in `%`…`%` meaning
substring containment. -/
def likeAnyAny (needle s : String) : Bool :=
  chHasSub (needle.data.map Char.toLower) (s.data.map Char.toLower)

/-- Case-sensitive substring containment (what a BINARY-collated GLOB-style
match of the same needle would do); kept to compare with `likeAnyAny`. -/
def containsCS (needle s : String) : Bool :=
  chHasSub needle.data s.data

/-- `student.grade += 1` on one loaded object. -/
def bump (r : Row) : Row :=
  { r with grade := r.grade + 1 }

/-- The UPDATE the session flush issues for one dirty object: set the new
grade on the row whose id is the primary key of that object. -/
def updOne (acc : List Row) (i : Nat) : List Row :=
  acc.map fun r => if r.id = i then bump r else r

/-- Per-object update path: `for student in session.query(Student):
student.grade += 1` then `session.commit()` — every queried row is loaded,
bumped in memory, and written back by primary key at flush. -/
def perObjectGradePath (tbl : List Row) : List Row :=
  (tbl.map Row.id).foldl updOne tbl

/-- Bulk-expression update path:
`session.query(Student).update({Student.grade: Student.grade + 1})` — one
UPDATE touching every row directly at the backend. -/
def bulkUpdateGradePath (tbl : List Row) : List Row :=
  tbl.map bump

/-- Delete-by-object path: `query.filter(pred).first()` loads the first
match; `session.delete(obj)` then removes the row carrying the primary key
of that object. When the query matches nothing, `first()` returns None and
`session.delete(None)` raises UnmappedInstanceError — modelled as `none`:
on that input this path produces no backend state at all. -/
def deleteByObjectPath (tbl : List Row) (pred : Row → Bool) : Option (List Row) :=
  match (tbl.filter pred).head? with
  | none => none
  | some r => some (tbl.filter fun x => !(x.id == r.id))

/-- Delete-by-expression path: `query.filter(pred).delete()` — one DELETE
removing every matching row directly at the backend. -/
def deleteByExprPath (tbl : List Row) (pred : Row → Bool) : List Row :=
  tbl.filter fun r => !(pred r)

/-- `session.delete(obj)`: on None the call raises UnmappedInstanceError
(modelled as `none`); on a loaded row it deletes by primary key. -/
def sessionDelete (db : DB) : Option Row → Option DB
  | none => none
  | some r => some { db with rows := db.rows.filter fun x => !(x.id == r.id) }

/-- `query.delete()`: removes every matching row and returns the count of
rows deleted; zero matches delete nothing and raise no error. -/
def queryDelete (db : DB) (pred : Row → Bool) : DB × Nat :=
  ({ db with rows := db.rows.filter fun r => !(pred r) },
   (db.rows.filter pred).length)

/-- The kinds of statement the scripted `__main__` block runs, in order. -/
inductive Step where
  | bulkInsert
  | commit
  | read
  | perObjectUpdate
  | bulkUpdateExpr
  | deleteByObject
  | deleteByExpr
deriving DecidableEq

/-- Steps that mutate the table. -/
def isMutating : Step → Bool
  | .bulkInsert => true
  | .perObjectUpdate => true
  | .bulkUpdateExpr => true
  | .deleteByObject => true
  | .deleteByExpr => true
  | _ => false

/-- Every mutating step is immediately followed by a commit. -/
def immediatelyCommitted : List Step → Bool
  | [] => true
  | [s] => !(isMutating s)
  | s :: t :: rest =>
    (!(isMutating s) || t == Step.commit) && immediatelyCommitted (t :: rest)

/-- Each mutating step paired with whether a commit immediately follows it. -/
def mutationsWithCommitFlag : List Step → List (Step × Bool)
  | [] => []
  | [s] => if isMutating s then [(s, false)] else []
  | s :: t :: rest =>
    (if isMutating s then [(s, t == Step.commit)] else [])
      ++ mutationsWithCommitFlag (t :: rest)

/-- Each mutating step paired with whether any commit occurs later in the
sequence (the session transaction stays open until the next commit, so a
later commit also commits this mutation). -/
def laterCommitFlags : List Step → List (Step × Bool)
  | [] => []
  | s :: rest =>
    (if isMutating s then [(s, decide (Step.commit ∈ rest))] else [])
      ++ laterCommitFlags rest

/-- The statement sequence of the `__main__` block, read off the source:
bulk_save_objects; commit; nine reads (two full-table reads, the name
projection, the two ordered reads, limit(1).all, first, the count, the
LIKE-and-grade filter); the per-object grade loop; commit; a read; the bulk
update expression; a read; the first() load for deletion; session.delete;
commit; a re-query; query.delete(); a re-query. -/
def scriptSteps : List Step :=
  [Step.bulkInsert, Step.commit,
   Step.read, Step.read, Step.read, Step.read, Step.read,
   Step.read, Step.read, Step.read, Step.read,
   Step.perObjectUpdate, Step.commit, Step.read,
   Step.bulkUpdateExpr, Step.read,
   Step.read, Step.deleteByObject, Step.commit, Step.read,
   Step.deleteByExpr, Step.read]

/-- `Student(name="Albert Einstein", email=..., grade=6, birthday=1879-03-14)`. -/
def albertObj : StudentObj :=
  { id := none
    name := "Albert Einstein"
    email := "albert.einstein@zurich.edu"
    grade := 6
    birthday := ⟨1879, 3, 14⟩
    enrolled_date := none }

/-- `Student(name="Alan Turing", email=..., grade=11, birthday=1912-06-23)`. -/
def alanObj : StudentObj :=
  { id := none
    name := "Alan Turing"
    email := "alan.turing@sherborne.edu"
    grade := 11
    birthday := ⟨1912, 6, 23⟩
    enrolled_date := none }

/-- `create_engine` + `create_all`: a fresh empty table; SQLite generates
ids from 1. -/
def emptyDB : DB :=
  { rows := [], nextId := 1 }

/-- `session.bulk_save_objects([albert_einstein, alan_turing])` followed by
`session.commit()`.  `t0` is the class-definition time captured by the
column default; `t1`, `t2` are the insertion times of the two rows. -/
def bulkResult (t0 t1 t2 : Nat) : DB × List StudentObj :=
  bulkSaveObjects emptyDB (enrolledDefault t0) [(albertObj, t1), (alanObj, t2)]

/-- Table state after the committed bulk insert. -/
def db1 (t0 t1 t2 : Nat) : DB :=
  (bulkResult t0 t1 t2).1

/-- The values interpolated into the two "New student ID is ..." print
lines: the `id` attributes of the two objects after the bulk insert
(None prints as the text "None"). -/
def idsPrinted (t0 t1 t2 : Nat) : List (Option Nat) :=
  ((bulkResult t0 t1 t2).2).map StudentObj.id

/-- `session.query(Student)` / `.all()`: the full-entity unfiltered read. -/
def studentsRead (t0 t1 t2 : Nat) : List Row :=
  queryAll (db1 t0 t1 t2)

/-- `session.query(Student.name).all()`: single-column name projection. -/
def namesRead (t0 t1 t2 : Nat) : List String :=
  (queryAll (db1 t0 t1 t2)).map Row.name

/-- `query(Student.name).order_by(Student.name).all()`. -/
def studentsByName (t0 t1 t2 : Nat) : List String :=
  (sortOn nameAscLe (queryAll (db1 t0 t1 t2))).map Row.name

/-- `query(Student.name, Student.grade).order_by(desc(Student.grade)).all()`. -/
def studentsByGradeDesc (t0 t1 t2 : Nat) : List (String × Int) :=
  (sortOn gradeDescLe (queryAll (db1 t0 t1 t2))).map fun r => (r.name, r.grade)

/-- `query(Student.name, Student.birthday).order_by(desc(Student.grade))
.limit(1).all()`. -/
def oldestLimit (t0 t1 t2 : Nat) : List (String × Date) :=
  ((sortOn gradeDescLe (queryAll (db1 t0 t1 t2))).map
    fun r => (r.name, r.birthday)).take 1

/-- Same projection and ordering via `.first()`. -/
def oldestFirst (t0 t1 t2 : Nat) : Option (String × Date) :=
  ((sortOn gradeDescLe (queryAll (db1 t0 t1 t2))).map
    fun r => (r.name, r.birthday)).head?

/-- `query(func.count(Student.id)).first()`: count over the id column. -/
def studentCount (t0 t1 t2 : Nat) : Nat :=
  ((queryAll (db1 t0 t1 t2)).map Row.id).length

/-- `query(Student).filter(Student.name.like("%Alan%"),
Student.grade == 11).all()`: both predicates combine by AND. -/
def filterAlan11 (t0 t1 t2 : Nat) : List Row :=
  (queryAll (db1 t0 t1 t2)).filter fun r =>
    likeAnyAny "Alan" r.name && r.grade == 11

/-- Table state after the per-object grade increments and their commit. -/
def db2 (t0 t1 t2 : Nat) : DB :=
  { db1 t0 t1 t2 with rows := perObjectGradePath (db1 t0 t1 t2).rows }

/-- Table state after `query(Student).update({Student.grade:
Student.grade + 1})` (executed at the backend, not followed by a commit). -/
def db3 (t0 t1 t2 : Nat) : DB :=
  { db2 t0 t1 t2 with rows := bulkUpdateGradePath (db2 t0 t1 t2).rows }

/-- `Student.name == "Albert Einstein"` as a row predicate. -/
def predAE (r : Row) : Bool :=
  r.name == "Albert Einstein"

/-- A name filter matching no row of the demo table. -/
def predNoMatch (r : Row) : Bool :=
  r.name == "Marie Curie"

/-- `query.filter(Student.name == "Albert Einstein").first()` at the
delete-by-object step. -/
def firstAE3 (t0 t1 t2 : Nat) : Option Row :=
  ((db3 t0 t1 t2).rows.filter predAE).head?

/-- `session.delete(albert_einstein)` on the loaded first match; `none`
would mean the call raised on a None instance. -/
def db4opt (t0 t1 t2 : Nat) : Option DB :=
  sessionDelete (db3 t0 t1 t2) (firstAE3 t0 t1 t2)

/-- Table state after the committed delete-by-object. -/
def db4 (t0 t1 t2 : Nat) : DB :=
  (db4opt t0 t1 t2).getD (db3 t0 t1 t2)

/-- Re-query `query.first()` after the delete-by-object. -/
def requery1 (t0 t1 t2 : Nat) : Option Row :=
  ((db4 t0 t1 t2).rows.filter predAE).head?

/-- Table state after `query.delete()` with the same filter. -/
def db5 (t0 t1 t2 : Nat) : DB :=
  (queryDelete (db4 t0 t1 t2) predAE).1

/-- Rows the second delete removed. -/
def deletedCount2 (t0 t1 t2 : Nat) : Nat :=
  (queryDelete (db4 t0 t1 t2) predAE).2

/-- Re-query `query.first()` after the delete-by-expression. -/
def requery2 (t0 t1 t2 : Nat) : Option Row :=
  ((db5 t0 t1 t2).rows.filter predAE).head?

/-- Bumping a grade leaves the primary key unchanged. -/
lemma bump_id (r : Row) : (bump r).id = r.id := rfl

/-- Flushing the per-object writes for a duplicate-free id list bumps
exactly the rows whose id occurs in the list. -/
lemma foldl_updOne (is : List Nat) (h : is.Nodup) (acc : List Row) :
    List.foldl updOne acc is
      = acc.map (fun r => if r.id ∈ is then bump r else r) := by
  induction is generalizing acc with
  | nil => simp
  | cons i is ih =>
    rw [List.nodup_cons] at h
    rw [List.foldl_cons, ih h.2, updOne, List.map_map]
    refine List.map_congr_left fun r _ => ?_
    simp only [Function.comp_apply]
    by_cases hr : r.id = i
    · rw [if_pos hr]
      simp only [bump_id, hr]
      rw [if_neg h.1, if_pos (List.mem_cons_self i is)]
    · rw [if_neg hr]
      simp [List.mem_cons, hr]

/-- On a table with unique primary keys, the per-object grade loop and the
bulk update expression write the same table. -/
lemma perObject_eq_bulk (tbl : List Row) (h : (tbl.map Row.id).Nodup) :
    perObjectGradePath tbl = bulkUpdateGradePath tbl := by
  unfold perObjectGradePath bulkUpdateGradePath
  rw [foldl_updOne _ h]
  refine List.map_congr_left fun r hr => ?_
  rw [if_pos (List.mem_map_of_mem Row.id hr)]

/-- On a table with unique primary keys where exactly one row matches the
filter, deleting the loaded first match succeeds and writes the same table
as deleting by expression. -/
lemma deleteObj_eq_deleteExpr (tbl : List Row) (pred : Row → Bool)
    (hids : (tbl.map Row.id).Nodup)
    (hone : (tbl.filter pred).length = 1) :
    deleteByObjectPath tbl pred = some (deleteByExprPath tbl pred) := by
  unfold deleteByObjectPath deleteByExprPath
  match hf : tbl.filter pred with
  | [] =>
    rw [hf] at hone
    simp at hone
  | [r] =>
    simp only [List.head?_cons]
    have hrmem : r ∈ tbl ∧ pred r = true := by
      have : r ∈ tbl.filter pred := by rw [hf]; exact List.mem_singleton_self r
      exact ⟨List.mem_of_mem_filter this, List.of_mem_filter this⟩
    refine congrArg some ?_
    refine List.filter_congr fun a ha => ?_
    suffices hsuf : (a.id == r.id) = pred a by rw [hsuf]
    cases hp : pred a with
    | true =>
      have : a ∈ tbl.filter pred := List.mem_filter.mpr ⟨ha, hp⟩
      rw [hf] at this
      have haeq : a = r := List.mem_singleton.mp this
      subst haeq
      simp
    | false =>
      rw [Bool.eq_false_iff]
      intro hbeq
      have hid : a.id = r.id := by simpa using hbeq
      have : a = r := List.inj_on_of_nodup_map hids ha hrmem.1 hid
      subst this
      rw [hrmem.2] at hp
      exact Bool.true_eq_false.mp hp
  | r1 :: r2 :: rest =>
    rw [hf] at hone
    simp at hone

/-- Claim C1 refutation: `bulk_save_objects` does not refresh the in-memory
objects, so after the committed bulk insert both `id` attributes are still
None — not distinct non-null generated identifiers — and the two print
lines show None. Concrete run with all timestamps 0. -/
theorem C1_counterexample :
    idsPrinted 0 0 0 = [none, none] ∧
    (idsPrinted 0 0 0).all Option.isSome = false :=
  ⟨rfl, rfl⟩

/-- Claim C1 (amended): after the committed bulk insert the two DATABASE
rows receive distinct generated identifiers 1 and 2 in insertion order
(Albert Einstein strictly lower than Alan Turing), but the in-memory
objects keep a None `id` and the two printed lines show None, not the
generated identifiers. -/
theorem C1_bulk_insert_amended (t0 t1 t2 : Nat) :
    (db1 t0 t1 t2).rows.map (fun r => (r.name, r.id))
      = [("Albert Einstein", 1), ("Alan Turing", 2)] ∧
    List.Chain' (· < ·) ((db1 t0 t1 t2).rows.map Row.id) ∧
    idsPrinted t0 t1 t2 = [none, none] := by
  refine ⟨rfl, ?_, rfl⟩
  rw [show (db1 t0 t1 t2).rows.map Row.id = [1, 2] from rfl]
  exact List.chain'_cons.mpr ⟨by norm_num, List.chain'_singleton 2⟩

/-- The concrete table of the scripted run (all timestamps 0), used to
instantiate the path-equivalence theorem. -/
def wtbl : List Row :=
  (db1 0 0 0).rows

/-- Claim C2 refutation: a table state (the demo table) and a filter with
at most one match — here zero — where the two delete paths do NOT produce
the same backend state: `first()` loads None, so `session.delete(None)`
raises and the by-object path yields no state, while the bulk delete
expression is a no-op returning the table unchanged. -/
theorem C2_counterexample :
    (wtbl.filter predNoMatch).length ≤ 1 ∧
    deleteByObjectPath wtbl predNoMatch = none ∧
    deleteByExprPath wtbl predNoMatch = wtbl ∧
    deleteByObjectPath wtbl predNoMatch ≠ some (deleteByExprPath wtbl predNoMatch) :=
  ⟨by decide, rfl, rfl, by decide⟩

/-- Claim C2 (amended): on any table state with unique primary keys, the
per-object grade increment equals the bulk update expression
`grade = grade + 1`; and when exactly one row matches the filter, deleting
the loaded first match succeeds and equals the bulk delete expression with
the same filter.  (When no row matches, the by-object path raises on the
None result of `first()` instead of producing a state, while the bulk
delete is a no-op.) -/
theorem C2_path_equivalence (tbl : List Row) (pred : Row → Bool)
    (hids : (tbl.map Row.id).Nodup)
    (hone : (tbl.filter pred).length = 1) :
    perObjectGradePath tbl = bulkUpdateGradePath tbl ∧
    deleteByObjectPath tbl pred = some (deleteByExprPath tbl pred) :=
  ⟨perObject_eq_bulk tbl hids, deleteObj_eq_deleteExpr tbl pred hids hone⟩

/-- Claim C2 witness: the equivalence instantiated at the concrete
two-student table with the Albert Einstein filter, which matches exactly
one row. -/
theorem C2_witness :
    (((wtbl.map Row.id).Nodup ∧ (wtbl.filter predAE).length = 1) ∧
      (perObjectGradePath wtbl = bulkUpdateGradePath wtbl ∧
        deleteByObjectPath wtbl predAE = some (deleteByExprPath wtbl predAE))) :=
  ⟨⟨by decide, by decide⟩, C2_path_equivalence wtbl predAE (by decide) (by decide)⟩

/-- Claim C3 refutation: it is false that every mutating step of the
scripted sequence is immediately followed by a commit — the bulk update
expression and the bulk delete expression are each followed by a read,
not a commit. -/
theorem C3_counterexample :
    immediatelyCommitted scriptSteps = false :=
  rfl

/-- Claim C3 (amended): in the scripted sequence the bulk insert, the
per-object update, and the delete-by-object are each immediately followed
by a commit before the next step runs.  The bulk-expression update is not
immediately followed by a commit — reads and the delete-by-object
intervene — although the commit after the delete-by-object does later
commit the transaction containing it.  The delete-by-expression is
followed by no commit at all before the script ends. -/
theorem C3_commit_placement_amended :
    mutationsWithCommitFlag scriptSteps
      = [(Step.bulkInsert, true), (Step.perObjectUpdate, true),
         (Step.bulkUpdateExpr, false), (Step.deleteByObject, true),
         (Step.deleteByExpr, false)] ∧
    laterCommitFlags scriptSteps
      = [(Step.bulkInsert, true), (Step.perObjectUpdate, true),
         (Step.bulkUpdateExpr, true), (Step.deleteByObject, true),
         (Step.deleteByExpr, false)] :=
  ⟨rfl, rfl⟩

/-- Claim C4: the `enrolled_date` default is the single timestamp `t0`
captured at class definition, independent of the insertion times `t1` and
`t2`, so both inserted students receive that same fixed timestamp. -/
theorem C4_enrolled_default_once (t0 t1 t2 : Nat) :
    applyDefault (enrolledDefault t0) t1 = t0 ∧
    applyDefault (enrolledDefault t0) t2 = t0 ∧
    (db1 t0 t1 t2).rows.map Row.enrolled_date = [t0, t0] :=
  ⟨rfl, rfl, rfl⟩

/-- Claim C5: after the committed delete-by-object the re-query returns no
row; after the subsequent delete-by-expression the re-query again returns
no row; and that second delete, matching nothing, deletes zero rows and
leaves the table unchanged (a no-op, not an error — `queryDelete` is total
and reports a count). -/
theorem C5_delete_idempotent (t0 t1 t2 : Nat) :
    requery1 t0 t1 t2 = none ∧
    requery2 t0 t1 t2 = none ∧
    (db5 t0 t1 t2).rows = (db4 t0 t1 t2).rows ∧
    deletedCount2 t0 t1 t2 = 0 :=
  ⟨rfl, rfl, rfl, rfl⟩

/-- Claim C6: the per-object increment takes the grades from (6, 11) to
(7, 12); the subsequent bulk-expression increment takes them to (8, 13);
and filtering `grade = 6` after both increments returns zero rows. -/
theorem C6_grade_increments (t0 t1 t2 : Nat) :
    (db2 t0 t1 t2).rows.map (fun r => (r.name, r.grade))
      = [("Albert Einstein", 7), ("Alan Turing", 12)] ∧
    (db3 t0 t1 t2).rows.map (fun r => (r.name, r.grade))
      = [("Albert Einstein", 8), ("Alan Turing", 13)] ∧
    (db3 t0 t1 t2).rows.filter (fun r => r.grade == 6) = [] :=
  ⟨rfl, rfl, rfl⟩

/-- Claim C7: for the (name, birthday) projection ordered descending by
grade, `limit(1).all()` and `first()` yield the identical row, namely the
(name, birthday) of Alan Turing. -/
theorem C7_limit_first_agree (t0 t1 t2 : Nat) :
    oldestLimit t0 t1 t2 = [("Alan Turing", ⟨1912, 6, 23⟩)] ∧
    oldestFirst t0 t1 t2 = some ("Alan Turing", ⟨1912, 6, 23⟩) ∧
    (oldestLimit t0 t1 t2).head? = oldestFirst t0 t1 t2 :=
  ⟨rfl, rfl, rfl⟩

/-- Claim C8: with both students inserted and grades unmodified, the single
filter combining the LIKE pattern on "Alan" with `grade = 11` returns
exactly one row, Alan Turing, whose name is what the loop prints; on these
rows a strictly case-sensitive substring match gives the same result, so
the claimed semantics and SQLite LIKE (ASCII case-insensitive) agree
here. -/
theorem C8_filter_alan_and_grade (t0 t1 t2 : Nat) :
    (filterAlan11 t0 t1 t2).map Row.name = ["Alan Turing"] ∧
    (filterAlan11 t0 t1 t2).length = 1 ∧
    (db1 t0 t1 t2).rows.filter
        (fun r => containsCS "Alan" r.name && r.grade == 11)
      = filterAlan11 t0 t1 t2 :=
  ⟨rfl, rfl, rfl⟩

/-- Claim C9: the unfiltered reads return the rows in ascending identifier
order — Albert Einstein (id 1) before Alan Turing (id 2) — both for the
full-entity read and for the name projection. -/
theorem C9_default_ordering (t0 t1 t2 : Nat) :
    (studentsRead t0 t1 t2).map (fun r => (r.name, r.id))
      = [("Albert Einstein", 1), ("Alan Turing", 2)] ∧
    namesRead t0 t1 t2 = ["Albert Einstein", "Alan Turing"] ∧
    List.Chain' (· < ·) ((studentsRead t0 t1 t2).map Row.id) := by
  refine ⟨rfl, rfl, ?_⟩
  rw [show (studentsRead t0 t1 t2).map Row.id = [1, 2] from rfl]
  exact List.chain'_cons.mpr ⟨by norm_num, List.chain'_singleton 2⟩

/-- Claim C10: at the delete-by-object step the Albert Einstein filter
matches exactly one row, so `first()` returns a loaded instance and
`session.delete` succeeds — its failure branch (a None argument) is not
taken. -/
theorem C10_delete_target_exists (t0 t1 t2 : Nat) :
    ((db3 t0 t1 t2).rows.filter predAE).length = 1 ∧
    (firstAE3 t0 t1 t2).isSome = true ∧
    (db4opt t0 t1 t2).isSome = true :=
  ⟨rfl, rfl, rfl⟩

end SqlalchemySandbox
